import Mathlib

/-!
Verification development for `uajsonrpcserver.py`, an asynchronous
JSON-RPC 2.0 server for MicroPython.  The request-validation/dispatch
pipeline (`UAJSONRPCServer.handle_request`), the per-connection loop
(`UAJSONRPCServer.handle_connection`), the error taxonomy
(`RequestError` and its subclasses) and the lifecycle (`start`) are
embedded shallowly below; the transport and scheduler are external
collaborators and are modelled by explicit streams of lines and by
explicit task identifiers.
-/

namespace Uajsonrpcserver

/-- Shallow embedding of the JSON values handled by the `json` module as
used in `uajsonrpcserver.py`.  Numbers are modelled as integers: no claim
depends on fractional numbers.  An object is a list of key/value pairs in
insertion order, with unique keys when produced by the parser below. -/
inductive JSON : Type where
  | null : JSON
  | bool : Bool → JSON
  | num : Int → JSON
  | str : String → JSON
  | arr : List JSON → JSON
  | obj : List (String × JSON) → JSON

/-- Source constant `JSONRPC_VERSION = "2.0"` (line 34). -/
def JSONRPC_VERSION : String := "2.0"

def jsonrpcKey : String := "jsonrpc"

def idKey : String := "id"

def methodKey : String := "method"

def paramsKey : String := "params"

def resultKey : String := "result"

def codeKey : String := "code"

def messageKey : String := "message"

def dataKey : String := "data"

def errorKey : String := "error"

/-- The diagnostic attached to the `InvalidRequest` raised at line 203. -/
def paramsTypeMsg : String := "Params must be an array or object"

/-- Python's `json.loads` decodes JSON `null` to `None`, so
`request_dict.get(k, None)` cannot distinguish an absent key from a key
bound to `null`.  `pyVal` maps a stored JSON value to the Python value
that `dict.get` returns for it. -/
def pyVal : JSON → Option JSON
  | JSON.null => none
  | v => some v

/-- Model of `request_dict.get(k, None)` on a decoded JSON object. -/
def pyGet (fields : List (String × JSON)) (k : String) : Option JSON :=
  match List.lookup k fields with
  | none => none
  | some v => pyVal v

/-- Whether the Python value of a `method` member can be hashed: the
membership test `method_name not in self.methods` at line 180 hashes
`method_name`, and a decoded JSON array (Python `list`) or object
(Python `dict`) is unhashable, so the test raises `TypeError` instead of
answering; every other decoded value (`None`, booleans, numbers,
strings) is hashable. -/
def hashable : Option JSON → Bool
  | some (JSON.arr _) => false
  | some (JSON.obj _) => false
  | _ => true

/-- The five `RequestError` subclasses of the source (lines 61-88). -/
inductive ErrKind : Type where
  | requestParseError : ErrKind
  | invalidRequest : ErrKind
  | methodNotFound : ErrKind
  | invalidParams : ErrKind
  | serverError : ErrKind
  deriving DecidableEq

/-- The class attribute `code` of each `RequestError` subclass. -/
def ErrKind.code : ErrKind → Int
  | ErrKind.requestParseError => -32700
  | ErrKind.invalidRequest => -32600
  | ErrKind.methodNotFound => -32601
  | ErrKind.invalidParams => -32602
  | ErrKind.serverError => -32000

/-- The class attribute `message` of each `RequestError` subclass. -/
def ErrKind.message : ErrKind → String
  | ErrKind.requestParseError => "Parse error"
  | ErrKind.invalidRequest => "Invalid request"
  | ErrKind.methodNotFound => "Method not found"
  | ErrKind.invalidParams => "Invalid params"
  | ErrKind.serverError => "Server error"

/-- A raised `RequestError`: its concrete subclass, the `request_id`
constructor argument (default `None`) and the `data` constructor argument
(default `None`; in the source it is always a string when set). -/
structure RequestError : Type where
  kind : ErrKind
  request_id : Option JSON
  data : Option String

/-- Mirrors `isinstance(exception, (RequestParseError, InvalidRequest))`
checked at line 153 of `handle_connection`. -/
def RequestError.isFatal (e : RequestError) : Bool :=
  match e.kind with
  | ErrKind.requestParseError => true
  | ErrKind.invalidRequest => true
  | _ => false

/-- Escape of one character inside a dumped JSON string, as `json.dumps`
does for the characters that occur here. -/
def escapeChar (c : Char) : String :=
  if c = '\x22' then "\\\x22"
  else if c = '\\' then "\\\\"
  else if c = '\n' then "\\n"
  else if c = '\t' then "\\t"
  else if c = '\r' then "\\r"
  else String.singleton c

def escapeString (s : String) : String :=
  String.join (List.map escapeChar s.toList)

mutual

/-- Model of Python `json.dumps` with its default separators
(`", "` between items and `": "` after keys). -/
def JSON.dumps : JSON → String
  | JSON.null => "null"
  | JSON.bool b => if b then "true" else "false"
  | JSON.num n => toString n
  | JSON.str s => "\x22" ++ escapeString s ++ "\x22"
  | JSON.arr xs => "[" ++ dumpsElems xs ++ "]"
  | JSON.obj fs => "\x7b" ++ dumpsMembers fs ++ "\x7d"

/-- Comma-separated dump of array elements. -/
def dumpsElems : List JSON → String
  | [] => ""
  | [x] => JSON.dumps x
  | x :: xs => JSON.dumps x ++ ", " ++ dumpsElems xs

/-- Comma-separated dump of object members. -/
def dumpsMembers : List (String × JSON) → String
  | [] => ""
  | [kv] => "\x22" ++ escapeString kv.1 ++ "\x22: " ++ JSON.dumps kv.2
  | kv :: fs =>
    "\x22" ++ escapeString kv.1 ++ "\x22: " ++ JSON.dumps kv.2 ++ ", " ++ dumpsMembers fs

end

/-- The dictionary built inside `RequestError.get_response` (lines 44-57):
the error member with `code`, `message` and optional `data`, wrapped in an
envelope with `jsonrpc` and optional `id`. -/
def RequestError.response_obj (e : RequestError) : JSON :=
  JSON.obj
    ([(jsonrpcKey, JSON.str JSONRPC_VERSION),
      (errorKey, JSON.obj
        ([(codeKey, JSON.num e.kind.code), (messageKey, JSON.str e.kind.message)]
          ++ (match e.data with
              | none => []
              | some d => [(dataKey, JSON.str d)])))]
      ++ (match e.request_id with
          | none => []
          | some i => [(idKey, i)]))

/-- Model of `RequestError.get_response` (lines 44-58). -/
def RequestError.get_response (e : RequestError) : String :=
  JSON.dumps e.response_obj

/-- A registered method: the stored tuple `(method, param_names)` of
`UAJSONRPCServer.methods` (line 117).  The callable is modelled as a
function from the ordered argument list (one value per declared parameter,
bound positionally or by keyword following Python call semantics, with
the declared `param_names` as the formal parameter names) to either a
result or the textual representation (`repr`) of a raised exception.  A
coroutine result is modelled as already awaited (line 206-207 resolve it
uniformly before proceeding). -/
structure Method : Type where
  run : List JSON → Except String JSON
  param_names : List String

/-- The compound condition at lines 185-190:
`params is None and num_params or isinstance(params, (list, dict)) and
len(params) != num_params`. -/
def badArity (params : Option JSON) (num_params : Nat) : Bool :=
  (params.isNone && !(num_params == 0))
    || (match params with
        | some (JSON.arr xs) => !(xs.length == num_params)
        | some (JSON.obj pfs) => !(pfs.length == num_params)
        | _ => false)

/-- Model of `set(param_names) != set(params.keys())` (line 196), as
extensional equality of the two key collections. -/
def sameKeySet (a b : List String) : Bool :=
  a.all (fun x => b.contains x) && b.all (fun x => a.contains x)

/-- Tail of `handle_request` (lines 204-217): call the method, wrap any
raised failure as `ServerError(request_id, repr(e))`, suppress the
response when the request was a notification, otherwise build the success
envelope `(jsonrpc, id, result)`. -/
def finishCall (m : Method) (request_id : Option JSON) (args : List JSON) :
    Except RequestError (Option JSON) :=
  match m.run args with
  | Except.error e => Except.error ⟨ErrKind.serverError, request_id, some e⟩
  | Except.ok result =>
    match request_id with
    | none => Except.ok none
    | some rid =>
      Except.ok (some (JSON.obj
        [(jsonrpcKey, JSON.str JSONRPC_VERSION), (idKey, rid), (resultKey, result)]))

/-- Lines 182-217 of `handle_request`, after the method entry has been
found: the arity check, the positional/named/other classification of
`params` (note that absent params falls into the final arm, exactly as
`None` falls into the `else` at line 202-203 of the source), keyword
binding by the declared parameter names, and `finishCall`. -/
def dispatchParams (m : Method) (method_name : String) (request_id : Option JSON)
    (params : Option JSON) : Except RequestError (Option JSON) :=
  if badArity params m.param_names.length then
    Except.error ⟨ErrKind.invalidParams, none,
      some ("Method " ++ method_name ++ " takes "
        ++ toString m.param_names.length ++ " params")⟩
  else
    match params with
    | some (JSON.arr positional_params) => finishCall m request_id positional_params
    | some (JSON.obj named_params) =>
      if sameKeySet m.param_names (named_params.map Prod.fst) then
        finishCall m request_id
          (m.param_names.map (fun n => (List.lookup n named_params).getD JSON.null))
      else
        Except.error ⟨ErrKind.invalidParams, none,
          some ("Method " ++ method_name ++ " param names are: "
            ++ (", ").intercalate m.param_names)⟩
    | _ => Except.error ⟨ErrKind.invalidRequest, none, some paramsTypeMsg⟩

/-- Check of `jsonrpc_version != JSONRPC_VERSION` (line 176): only the
string `"2.0"` passes; any other value, `None` or JSON `null` fails. -/
def isVersion : Option JSON → Bool
  | some (JSON.str s) => s == JSONRPC_VERSION
  | _ => false

/-- Model of `UAJSONRPCServer.handle_request` after `json.loads` (lines
173-217): the object check, the version check, extraction of `id` and
`method`, the registry lookup, then `dispatchParams`.  The outer `none`
models a Python exception that is not a `RequestError` escaping
`handle_request`: when the `method` member is a JSON array or object,
`method_name not in self.methods` at line 180 raises an uncaught
`TypeError` (unhashable key, see `hashable`).  Any other non-string
`method` value is hashable and simply not among the registry's string
keys, giving `MethodNotFound`. -/
def handleParsed (methods : List (String × Method)) :
    JSON → Option (Except RequestError (Option JSON))
  | JSON.obj fields =>
    if isVersion (pyGet fields jsonrpcKey) then
      match pyGet fields methodKey with
      | some (JSON.str method_name) =>
        match List.lookup method_name methods with
        | some m =>
          some (dispatchParams m method_name (pyGet fields idKey)
            (pyGet fields paramsKey))
        | none =>
          some (Except.error ⟨ErrKind.methodNotFound, pyGet fields idKey, none⟩)
      | some (JSON.arr _) => none
      | some (JSON.obj _) => none
      | _ => some (Except.error ⟨ErrKind.methodNotFound, pyGet fields idKey, none⟩)
    else
      some (Except.error ⟨ErrKind.invalidRequest, none, none⟩)
  | _ => some (Except.error ⟨ErrKind.invalidRequest, none, none⟩)

/-- ASCII whitespace as treated by the scanner of `json.loads` and by
`str.strip` on the inputs that occur here. -/
def skipWs : List Char → List Char
  | [] => []
  | c :: cs => if c.isWhitespace then skipWs cs else c :: cs

/-- Model of Python `str.strip()` (line 146) for ASCII whitespace. -/
def pyStrip (s : String) : String :=
  String.mk (((s.toList.dropWhile Char.isWhitespace).reverse.dropWhile
    Char.isWhitespace).reverse)

def takeDigits : List Char → List Char × List Char
  | [] => ([], [])
  | c :: cs =>
    if c.isDigit then
      match takeDigits cs with
      | (ds, rest) => (c :: ds, rest)
    else ([], c :: cs)

def digitsToNat (ds : List Char) : Nat :=
  ds.foldl (fun acc c => acc * 10 + (c.toNat - 48)) 0

/-- Characters of a JSON string literal up to the closing quote, decoding
the escapes that occur here. -/
def parseStringChars : List Char → Option (List Char × List Char)
  | [] => none
  | c :: cs =>
    if c = '\x22' then some ([], cs)
    else if c = '\\' then
      match cs with
      | [] => none
      | e :: cs2 =>
        match parseStringChars cs2 with
        | none => none
        | some (out, rest) =>
          some ((if e = 'n' then '\n'
                 else if e = 't' then '\t'
                 else if e = 'r' then '\r'
                 else e) :: out, rest)
    else
      match parseStringChars cs with
      | none => none
      | some (out, rest) => some (c :: out, rest)

/-- Insertion into a Python dict: a duplicate key overwrites the stored
value in place, a new key is appended. -/
def dictInsert (fields : List (String × JSON)) (k : String) (v : JSON) :
    List (String × JSON) :=
  if fields.any (fun p => p.1 = k) then
    fields.map (fun p => if p.1 = k then (k, v) else p)
  else fields ++ [(k, v)]

mutual

/-- Fuel-indexed scanner for one JSON value. -/
def parseValue : Nat → List Char → Option (JSON × List Char)
  | 0, _ => none
  | Nat.succ fuel, input =>
    match skipWs input with
    | [] => none
    | c :: cs =>
      if c = 'n' then
        match cs with
        | 'u' :: 'l' :: 'l' :: rest => some (JSON.null, rest)
        | _ => none
      else if c = 't' then
        match cs with
        | 'r' :: 'u' :: 'e' :: rest => some (JSON.bool true, rest)
        | _ => none
      else if c = 'f' then
        match cs with
        | 'a' :: 'l' :: 's' :: 'e' :: rest => some (JSON.bool false, rest)
        | _ => none
      else if c = '-' then
        match takeDigits cs with
        | ([], _) => none
        | (ds, rest) => some (JSON.num (-(Int.ofNat (digitsToNat ds))), rest)
      else if c.isDigit then
        match takeDigits (c :: cs) with
        | (ds, rest) => some (JSON.num (Int.ofNat (digitsToNat ds)), rest)
      else if c = '\x22' then
        match parseStringChars cs with
        | some (scs, rest) => some (JSON.str (String.mk scs), rest)
        | none => none
      else if c = '[' then
        match skipWs cs with
        | ']' :: rest => some (JSON.arr [], rest)
        | rest =>
          match parseElems fuel rest with
          | some (vs, rest2) => some (JSON.arr vs, rest2)
          | none => none
      else if c = '\x7b' then
        match skipWs cs with
        | '\x7d' :: rest => some (JSON.obj [], rest)
        | rest =>
          match parseMembers fuel rest with
          | some (ms, rest2) =>
            some (JSON.obj (ms.foldl (fun acc kv => dictInsert acc kv.1 kv.2) []), rest2)
          | none => none
      else none

/-- Comma-separated array elements up to the closing bracket. -/
def parseElems : Nat → List Char → Option (List JSON × List Char)
  | 0, _ => none
  | Nat.succ fuel, input =>
    match parseValue fuel input with
    | none => none
    | some (v, rest) =>
      match skipWs rest with
      | ',' :: rest2 =>
        match parseElems fuel rest2 with
        | none => none
        | some (vs, rest3) => some (v :: vs, rest3)
      | ']' :: rest2 => some ([v], rest2)
      | _ => none

/-- Comma-separated object members up to the closing brace. -/
def parseMembers : Nat → List Char → Option (List (String × JSON) × List Char)
  | 0, _ => none
  | Nat.succ fuel, input =>
    match skipWs input with
    | [] => none
    | c :: cs =>
      if c = '\x22' then
        match parseStringChars cs with
        | none => none
        | some (kcs, rest) =>
          match skipWs rest with
          | ':' :: rest2 =>
            match parseValue fuel rest2 with
            | none => none
            | some (v, rest3) =>
              match skipWs rest3 with
              | ',' :: rest4 =>
                match parseMembers fuel rest4 with
                | none => none
                | some (ms, rest5) => some ((String.mk kcs, v) :: ms, rest5)
              | '\x7d' :: rest4 => some ([(String.mk kcs, v)], rest4)
              | _ => none
          | _ => none
      else none

end

/-- Model of `json.loads` on the JSON subset exercised here (objects,
arrays, strings, integer numbers, booleans, null); `none` models the
`ValueError` caught at line 171.  In particular the empty string fails to
parse.  Duplicate object keys overwrite as in a Python dict. -/
def json_loads (s : String) : Option JSON :=
  match parseValue (2 * s.length + 2) s.toList with
  | some (v, rest) => if (skipWs rest).isEmpty then some v else none
  | none => none

/-- Rendering of a `handleParsed` outcome: `json.dumps(response_obj)` at
line 217 for a success envelope; a suppressed notification response stays
`none`. -/
def renderResult : Except RequestError (Option JSON) →
    Except RequestError (Option String)
  | Except.error e => Except.error e
  | Except.ok none => Except.ok none
  | Except.ok (some r) => Except.ok (some (JSON.dumps r))

/-- Model of `UAJSONRPCServer.handle_request` (lines 166-217) on one
stripped request line: `json.loads` (failure raises `RequestParseError`),
then validation and dispatch, dumping the success envelope when one is
produced.  `some (Except.ok none)` models `return None` for a successful
notification; the outer `none` models an escaping non-`RequestError`
exception (see `handleParsed`). -/
def handle_request (methods : List (String × Method)) (request_str : String) :
    Option (Except RequestError (Option String)) :=
  match json_loads request_str with
  | none => some (Except.error ⟨ErrKind.requestParseError, none, none⟩)
  | some request_dict => Option.map renderResult (handleParsed methods request_dict)

/-- Model of `UAJSONRPCServer.handle_connection` (lines 137-164).  The
transport is modelled by the list of successive `readline` results (an
element `""` is an empty read, i.e. end of stream).  The value is the pair
of (the lines written to the socket, in order) and (the readline results
never consumed by the loop).  A `RequestError` response is written and, if
the exception is a `RequestParseError` or `InvalidRequest`, `fatal_error`
stops the loop; a `None` response writes nothing (`if response_str:`); an
exception outside the taxonomy (`handle_request` returning `none`) is not
caught by `except RequestError`, so it aborts the loop via the outer
`except Exception` at line 159 with nothing written for that line.
Logging and the unconditional close in `finally` are side effects outside
the model. -/
def handle_connection (methods : List (String × Method)) :
    List String → List String × List String
  | [] => ([], [])
  | line :: rest =>
    if line = "" then ([], rest)
    else
      match handle_request methods (pyStrip line) with
      | none => ([], rest)
      | some (Except.ok none) => handle_connection methods rest
      | some (Except.ok (some r)) =>
        ((r ++ "\n") :: (handle_connection methods rest).1,
          (handle_connection methods rest).2)
      | some (Except.error e) =>
        if e.isFatal then ([e.get_response ++ "\n"], rest)
        else
          ((e.get_response ++ "\n") :: (handle_connection methods rest).1,
            (handle_connection methods rest).2)

/-- Serving state of `UAJSONRPCServer`: the `task` attribute (line 118)
and, to make double-binding observable, the list of listener tasks ever
spawned together with a fresh-id counter.  `asyncio.create_task(
asyncio.start_server(...))` is modelled as allocating a fresh task id and
appending a listener. -/
structure ServerState : Type where
  task : Option Nat
  listeners : List Nat
  next_task_id : Nat
  deriving DecidableEq

/-- Model of `UAJSONRPCServer.start` (lines 124-129): unconditionally
create the server task and assign it to `self.task` — there is no check
whether a task already exists. -/
def UAJSONRPCServer.start (s : ServerState) : ServerState :=
  { task := some s.next_task_id,
    listeners := s.listeners ++ [s.next_task_id],
    next_task_id := s.next_task_id + 1 }

/-- A server that has already been started: `task` is set and one
listener task exists. -/
def startedState : ServerState := ⟨some 0, [0], 1⟩

def pingName : String := "ping"

/-- A registered handler declaring no parameters. -/
def pingMethod : Method := ⟨fun _ => Except.ok JSON.null, []⟩

def pingMethods : List (String × Method) := [(pingName, pingMethod)]

/-- Fields of `{"jsonrpc": "2.0", "method": "ping", "id": 1}` — note the
`params` member is absent. -/
def reqPingNoParamsFields : List (String × JSON) :=
  [(jsonrpcKey, JSON.str JSONRPC_VERSION), (methodKey, JSON.str pingName),
    (idKey, JSON.num 1)]

def reqPingNoParams : JSON := JSON.obj reqPingNoParamsFields

def echoName : String := "echo"

def xKey : String := "x"

/-- A one-parameter handler echoing its argument list. -/
def echoMethod : Method := ⟨fun args => Except.ok (JSON.arr args), [xKey]⟩

def echoMethods : List (String × Method) := [(echoName, echoMethod)]

/-- Fields of `{"jsonrpc": "2.0", "method": "echo", "params": [5],
"id": null}` — the `id` member is present and bound to JSON `null`. -/
def reqIdNullFields : List (String × JSON) :=
  [(jsonrpcKey, JSON.str JSONRPC_VERSION), (methodKey, JSON.str echoName),
    (paramsKey, JSON.arr [JSON.num 5]), (idKey, JSON.null)]

/-- A request template `{"jsonrpc": "2.0", "method": name, "params": p,
"id": idv}`. -/
def reqWith (name : String) (idv : JSON) (p : JSON) : JSON :=
  JSON.obj [(jsonrpcKey, JSON.str JSONRPC_VERSION), (methodKey, JSON.str name),
    (paramsKey, p), (idKey, idv)]

def aKey : String := "a"

def bKey : String := "b"

def cKey : String := "c"

def pairName : String := "pair"

/-- A two-parameter handler returning its argument list. -/
def pairMethod : Method := ⟨fun args => Except.ok (JSON.arr args), [aKey, bKey]⟩

def pairMethods : List (String × Method) := [(pairName, pairMethod)]

def failName : String := "fail"

/-- The textual representation of the failure raised by `failMethod`. -/
def failMsg : String := "Exception(boom)"

/-- A handler that always raises. -/
def failMethod : Method := ⟨fun _ => Except.error failMsg, []⟩

def failMethods : List (String × Method) := [(failName, failMethod)]

/-- A received line that is not valid JSON. -/
def badLine : String := "nonsense"

/-- The line `{"jsonrpc": "2.0"}` — a valid request object with no
`method` member and no `id` member. -/
def noMethodLine : String := "\x7b\x22jsonrpc\x22: \x222.0\x22\x7d"

def noMethodFields : List (String × JSON) := [(jsonrpcKey, JSON.str JSONRPC_VERSION)]

/-- The line `{"jsonrpc": "2.0", "method": []}` — an id-less request
whose `method` member is a JSON array, an unhashable Python value. -/
def crashLine : String := "\x7b\x22jsonrpc\x22: \x222.0\x22, \x22method\x22: []\x7d"

def crashFields : List (String × JSON) :=
  [(jsonrpcKey, JSON.str JSONRPC_VERSION), (methodKey, JSON.arr [])]

/-- Fields of `{"jsonrpc": "2.0", "method": "ping", "id": 7}`, to be
processed against an empty registry. -/
def reqUnknownFields : List (String × JSON) :=
  [(jsonrpcKey, JSON.str JSONRPC_VERSION), (methodKey, JSON.str pingName),
    (idKey, JSON.num 7)]

/-- Fields of `{"jsonrpc": "2.0", "method": "echo", "params": [5],
"id": 7}`. -/
def reqId7Fields : List (String × JSON) :=
  [(jsonrpcKey, JSON.str JSONRPC_VERSION), (methodKey, JSON.str echoName),
    (paramsKey, JSON.arr [JSON.num 5]), (idKey, JSON.num 7)]

/-- Fields of `{"jsonrpc": "2.0", "method": "echo", "params": [],
"id": 7}` — zero arguments for a one-parameter method. -/
def reqBadArityFields : List (String × JSON) :=
  [(jsonrpcKey, JSON.str JSONRPC_VERSION), (methodKey, JSON.str echoName),
    (paramsKey, JSON.arr []), (idKey, JSON.num 7)]

/-- Evaluation lemma: on the `reqWith` template the header checks of
`handleParsed` reduce, leaving the registry lookup. -/
theorem handleParsed_reqWith (methods : List (String × Method)) (name : String)
    (idv p : JSON) (m : Method) (hm : List.lookup name methods = some m) :
    handleParsed methods (reqWith name idv p) =
      some (dispatchParams m name (pyVal idv) (pyVal p)) := by
  have h : handleParsed methods (reqWith name idv p) =
      (match List.lookup name methods with
       | some mm => some (dispatchParams mm name (pyVal idv) (pyVal p))
       | none =>
         some (Except.error ⟨ErrKind.methodNotFound, pyVal idv, none⟩)) := rfl
  rw [h, hm]

/-- Case enumeration of `dispatchParams`: it raises `InvalidParams`
without an id, raises `InvalidRequest` without an id for
non-array/object params, wraps a handler failure as `ServerError`
carrying the request id, suppresses the response of a successful
notification, or builds the success envelope echoing the request id. -/
theorem dispatchParams_shape (m : Method) (mn : String) (rid : Option JSON)
    (params : Option JSON) :
    (∃ d, dispatchParams m mn rid params =
      Except.error ⟨ErrKind.invalidParams, none, some d⟩) ∨
    dispatchParams m mn rid params =
      Except.error ⟨ErrKind.invalidRequest, none, some paramsTypeMsg⟩ ∨
    (∃ args e, m.run args = Except.error e ∧
      dispatchParams m mn rid params =
        Except.error ⟨ErrKind.serverError, rid, some e⟩) ∨
    (∃ args res, m.run args = Except.ok res ∧ rid = none ∧
      dispatchParams m mn rid params = Except.ok none) ∨
    (∃ args res rv, m.run args = Except.ok res ∧ rid = some rv ∧
      dispatchParams m mn rid params = Except.ok (some (JSON.obj
        [(jsonrpcKey, JSON.str JSONRPC_VERSION), (idKey, rv),
          (resultKey, res)]))) := by
  unfold dispatchParams
  split
  · exact Or.inl ⟨_, rfl⟩
  · split
    · rename_i ps hba
      cases hrun : m.run ps with
      | error e =>
        refine Or.inr (Or.inr (Or.inl ⟨ps, e, hrun, ?_⟩))
        unfold finishCall
        rw [hrun]
      | ok res =>
        cases rid with
        | none =>
          refine Or.inr (Or.inr (Or.inr (Or.inl ⟨ps, res, hrun, rfl, ?_⟩)))
          unfold finishCall
          rw [hrun]
        | some rv =>
          refine Or.inr (Or.inr (Or.inr (Or.inr ⟨ps, res, rv, hrun, rfl, ?_⟩)))
          unfold finishCall
          rw [hrun]
    · rename_i pfs hba
      split
      · cases hrun : m.run (m.param_names.map fun n =>
            (List.lookup n pfs).getD JSON.null) with
        | error e =>
          refine Or.inr (Or.inr (Or.inl ⟨_, e, hrun, ?_⟩))
          unfold finishCall
          rw [hrun]
        | ok res =>
          cases rid with
          | none =>
            refine Or.inr (Or.inr (Or.inr (Or.inl ⟨_, res, hrun, rfl, ?_⟩)))
            unfold finishCall
            rw [hrun]
          | some rv =>
            refine Or.inr (Or.inr (Or.inr (Or.inr ⟨_, res, rv, hrun, rfl, ?_⟩)))
            unfold finishCall
            rw [hrun]
      · exact Or.inl ⟨_, rfl⟩
    · exact Or.inr (Or.inl rfl)
  -- end dispatchParams_shape

/-- Case enumeration of `handleParsed` on an object request: the version
check fails, the method is missing/unknown (`MethodNotFound` carrying the
extracted id), the `method` value is unhashable and the uncaught
`TypeError` escapes, or the found entry is dispatched. -/
theorem handleParsed_obj_cases (methods : List (String × Method))
    (fields : List (String × JSON)) :
    handleParsed methods (JSON.obj fields) =
      some (Except.error ⟨ErrKind.invalidRequest, none, none⟩) ∨
    handleParsed methods (JSON.obj fields) =
      some (Except.error ⟨ErrKind.methodNotFound, pyGet fields idKey, none⟩) ∨
    handleParsed methods (JSON.obj fields) = none ∨
    (∃ mn m, pyGet fields methodKey = some (JSON.str mn) ∧
      List.lookup mn methods = some m ∧
      handleParsed methods (JSON.obj fields) =
        some (dispatchParams m mn (pyGet fields idKey)
          (pyGet fields paramsKey))) := by
  simp only [handleParsed]
  split
  · split
    · rename_i mn hmeq
      split
      · rename_i m hm
        exact Or.inr (Or.inr (Or.inr ⟨mn, m, hmeq, hm, rfl⟩))
      · exact Or.inr (Or.inl rfl)
    · exact Or.inr (Or.inr (Or.inl rfl))
    · exact Or.inr (Or.inr (Or.inl rfl))
    · exact Or.inr (Or.inl rfl)
  · exact Or.inl rfl

/-- A hashable `method` value (anything but a JSON array or object)
never makes the registry lookup raise: `handleParsed` returns a
classified outcome. -/
theorem handleParsed_no_crash (methods : List (String × Method))
    (fields : List (String × JSON))
    (hmeth : hashable (pyGet fields methodKey) = true) :
    handleParsed methods (JSON.obj fields) ≠ none := by
  simp only [handleParsed]
  split
  · split
    · split
      · exact fun h => Option.noConfusion h
      · exact fun h => Option.noConfusion h
    · rename_i xs hmeq
      rw [hmeq] at hmeth
      simp [hashable] at hmeth
    · rename_i pfs hmeq
      rw [hmeq] at hmeth
      simp [hashable] at hmeth
    · exact fun h => Option.noConfusion h
  · exact fun h => Option.noConfusion h

/-- C1 (code bug): the method `ping` is registered with an empty
parameter-name list and the request `{"jsonrpc": "2.0", "method": "ping",
"id": 1}` carries no `params` member, yet `handle_request` raises
`InvalidRequest` (code -32600, fatal) with the diagnostic "Params must be
an array or object" instead of invoking the handler and returning a
success envelope: absent `params` falls through the `isinstance` chain
into the `else` branch at lines 202-203, although the arity guard at
lines 185-190 deliberately lets an absent `params` with zero declared
parameters through. -/
theorem c1_absent_params_zero_arity_rejected :
    pingMethod.param_names = [] ∧
    List.lookup paramsKey reqPingNoParamsFields = none ∧
    handleParsed pingMethods reqPingNoParams =
      some (Except.error ⟨ErrKind.invalidRequest, none, some paramsTypeMsg⟩) ∧
    RequestError.isFatal ⟨ErrKind.invalidRequest, none, some paramsTypeMsg⟩ = true ∧
    ErrKind.code ErrKind.invalidRequest = -32600 :=
  ⟨rfl, rfl, rfl, rfl, rfl⟩

/-- C3 (code bug): calling `start()` on an already-started server is not
a no-op: `start` runs no "already running" check, so it spawns a second
listener task and overwrites `self.task`. -/
theorem c3_start_double_binds :
    startedState.task = some 0 ∧
    UAJSONRPCServer.start startedState ≠ startedState ∧
    (UAJSONRPCServer.start startedState).listeners.length =
      startedState.listeners.length + 1 := by
  decide

/-- C2 counterexample: the request `{"jsonrpc": "2.0", "method": "echo",
"params": [5], "id": null}` contains an `id` member (bound to JSON null),
but processing returns no envelope at all: `request_dict.get("id", None)`
decodes the null id to `None`, so the request is handled as a
notification, contradicting the claim that any request with an `id`
member is treated as a non-notification and answered with an envelope
echoing that id. -/
theorem c2_null_id_counterexample :
    List.lookup idKey reqIdNullFields = some JSON.null ∧
    handleParsed echoMethods (JSON.obj reqIdNullFields) =
      some (Except.ok none) :=
  ⟨rfl, rfl⟩

/-- With a known (non-null) request id, `dispatchParams` never suppresses
the response, every success envelope echoes the id, and any
`MethodNotFound`/`ServerError` it raises carries the id. -/
theorem dispatchParams_some_id (m : Method) (mn : String) (v : JSON)
    (params : Option JSON) :
    dispatchParams m mn (some v) params ≠ Except.ok none ∧
    (∀ r, dispatchParams m mn (some v) params = Except.ok (some r) →
      ∃ res, r = JSON.obj [(jsonrpcKey, JSON.str JSONRPC_VERSION), (idKey, v),
        (resultKey, res)]) ∧
    (∀ e, dispatchParams m mn (some v) params = Except.error e →
      e.kind = ErrKind.methodNotFound ∨ e.kind = ErrKind.serverError →
      e.request_id = some v) := by
  rcases dispatchParams_shape m mn (some v) params with
    ⟨d, hd⟩ | hd | ⟨args, err, hrun, hd⟩ | ⟨args, res, hrun, hrid, hd⟩ |
    ⟨args, res, rv, hrun, hrid, hd⟩
  · rw [hd]
    refine ⟨by simp, by simp, ?_⟩
    intro e he hk
    injection he with h2
    subst h2
    rcases hk with hk | hk <;> exact ErrKind.noConfusion hk
  · rw [hd]
    refine ⟨by simp, by simp, ?_⟩
    intro e he hk
    injection he with h2
    subst h2
    rcases hk with hk | hk <;> exact ErrKind.noConfusion hk
  · rw [hd]
    refine ⟨by simp, by simp, ?_⟩
    intro e he hk
    injection he with h2
    subst h2
    rfl
  · exact Option.noConfusion hrid
  · injection hrid with h3
    subst h3
    rw [hd]
    refine ⟨by simp, ?_, by simp⟩
    intro r hr
    injection hr with h4
    injection h4 with h5
    exact ⟨res, h5.symm⟩

/-- Classification of the request id carried by any error raised by
`dispatchParams`. -/
theorem dispatchParams_error_id (m : Method) (mn : String) (rid : Option JSON)
    (params : Option JSON) (e : RequestError)
    (he : dispatchParams m mn rid params = Except.error e) :
    (e.kind = ErrKind.invalidParams ∨ e.kind = ErrKind.invalidRequest →
      e.request_id = none) ∧
    (e.kind = ErrKind.serverError → e.request_id = rid) ∧
    e.kind ≠ ErrKind.methodNotFound := by
  rcases dispatchParams_shape m mn rid params with
    ⟨d, hd⟩ | hd | ⟨args, err, hrun, hd⟩ | ⟨args, res, hrun, hrid, hd⟩ |
    ⟨args, res, rv, hrun, hrid, hd⟩
  · rw [hd] at he
    injection he with h2
    subst h2
    exact ⟨fun _ => rfl, fun hk => ErrKind.noConfusion hk,
      fun hk => ErrKind.noConfusion hk⟩
  · rw [hd] at he
    injection he with h2
    subst h2
    exact ⟨fun _ => rfl, fun hk => ErrKind.noConfusion hk,
      fun hk => ErrKind.noConfusion hk⟩
  · rw [hd] at he
    injection he with h2
    subst h2
    exact ⟨fun hk => by rcases hk with hk | hk <;> exact ErrKind.noConfusion hk,
      fun _ => rfl, fun hk => ErrKind.noConfusion hk⟩
  · rw [hd] at he
    exact Except.noConfusion he
  · rw [hd] at he
    exact Except.noConfusion he

/-- A notification (no request id) never yields a response payload from
`dispatchParams`. -/
theorem dispatchParams_none_id (m : Method) (mn : String) (params : Option JSON) :
    ∀ r, dispatchParams m mn none params ≠ Except.ok (some r) := by
  intro r hr
  rcases dispatchParams_shape m mn none params with
    ⟨d, hd⟩ | hd | ⟨args, err, hrun, hd⟩ | ⟨args, res, hrun, hrid, hd⟩ |
    ⟨args, res, rv, hrun, hrid, hd⟩
  · rw [hd] at hr
    exact Except.noConfusion hr
  · rw [hd] at hr
    exact Except.noConfusion hr
  · rw [hd] at hr
    exact Except.noConfusion hr
  · rw [hd] at hr
    injection hr with h2
    exact Option.noConfusion h2
  · exact Option.noConfusion hrid

/-- A request object without an extractable id never yields a response
payload from `handleParsed`. -/
theorem handleParsed_notification_no_payload (methods : List (String × Method))
    (fields : List (String × JSON)) (hid : pyGet fields idKey = none) :
    ∀ r, handleParsed methods (JSON.obj fields) ≠ some (Except.ok (some r)) := by
  intro r hr
  rcases handleParsed_obj_cases methods fields with h | h | h | ⟨mn, m, hmeq, hm, h⟩
  · rw [h] at hr
    injection hr with h2
    exact Except.noConfusion h2
  · rw [h] at hr
    injection hr with h2
    exact Except.noConfusion h2
  · rw [h] at hr
    exact Option.noConfusion hr
  · rw [h, hid] at hr
    injection hr with h2
    exact dispatchParams_none_id m mn (pyGet fields paramsKey) r h2

/-- When the line parses, `handle_request` is the rendered outcome of
`handleParsed`. -/
theorem handle_request_parsed (methods : List (String × Method)) (s : String)
    (d : JSON) (hp : json_loads s = some d) :
    handle_request methods s =
      Option.map renderResult (handleParsed methods d) := by
  unfold handle_request
  rw [hp]

/-- C2 (amended): a request whose `id` member is present with a non-null
value is never answered with a suppressed response; if the call succeeds,
the success envelope's `id` is the request's id (same JSON value, type
preserved); and any `MethodNotFound` or `ServerError` raised for it
carries that id.  (A null `id` is treated as an absent one —
`c2_null_id_counterexample` — and `InvalidParams` /
`InvalidRequest` envelopes omit the id, see `c9_error_id_policy`.) -/
theorem c2_nonnull_id_echoed (methods : List (String × Method))
    (fields : List (String × JSON)) (v : JSON)
    (hid : pyGet fields idKey = some v) :
    handleParsed methods (JSON.obj fields) ≠ some (Except.ok none) ∧
    (∀ r, handleParsed methods (JSON.obj fields) = some (Except.ok (some r)) →
      ∃ res, r = JSON.obj [(jsonrpcKey, JSON.str JSONRPC_VERSION), (idKey, v),
        (resultKey, res)]) ∧
    (∀ e, handleParsed methods (JSON.obj fields) = some (Except.error e) →
      e.kind = ErrKind.methodNotFound ∨ e.kind = ErrKind.serverError →
      e.request_id = some v) := by
  rcases handleParsed_obj_cases methods fields with h | h | h | ⟨mn, m, hmeq, hm, h⟩
  · rw [h]
    refine ⟨by simp, by simp, ?_⟩
    intro e he hk
    injection he with h2
    injection h2 with h3
    subst h3
    rcases hk with hk | hk <;> exact ErrKind.noConfusion hk
  · rw [h, hid]
    refine ⟨by simp, by simp, ?_⟩
    intro e he hk
    injection he with h2
    injection h2 with h3
    subst h3
    rfl
  · rw [h]
    exact ⟨by simp, by simp, by simp⟩
  · rw [h, hid]
    have hd := dispatchParams_some_id m mn v (pyGet fields paramsKey)
    refine ⟨?_, ?_, ?_⟩
    · intro hcon
      injection hcon with h2
      exact hd.1 h2
    · intro r hr
      injection hr with h2
      exact hd.2.1 r h2
    · intro e he hk
      injection he with h2
      exact hd.2.2 e h2 hk

/-- Witness for `c2_nonnull_id_echoed` at the request
`{"jsonrpc": "2.0", "method": "echo", "params": [5], "id": 7}`. -/
theorem c2_nonnull_id_echoed_witness :
    handleParsed echoMethods (JSON.obj reqId7Fields) ≠ some (Except.ok none) :=
  (c2_nonnull_id_echoed echoMethods reqId7Fields (JSON.num 7) rfl).1

/-- C9: every error raised by `handleParsed` with kind `InvalidParams`
(arity mismatch or named-key-set mismatch) or `InvalidRequest` (including
the scalar-params case) omits the request id, even when the id was
already extracted; only `MethodNotFound` and `ServerError` carry the
extracted id. -/
theorem c9_error_id_policy (methods : List (String × Method)) (j : JSON)
    (e : RequestError)
    (he : handleParsed methods j = some (Except.error e)) :
    (e.kind = ErrKind.invalidParams ∨ e.kind = ErrKind.invalidRequest →
      e.request_id = none) ∧
    (e.kind = ErrKind.methodNotFound ∨ e.kind = ErrKind.serverError →
      ∃ fields, j = JSON.obj fields ∧ e.request_id = pyGet fields idKey) := by
  cases j with
  | obj fields =>
    rcases handleParsed_obj_cases methods fields with h | h | h | ⟨mn, m, hmeq, hm, h⟩
    · rw [h] at he
      injection he with h2
      injection h2 with h3
      subst h3
      refine ⟨fun _ => rfl, fun hk => ?_⟩
      rcases hk with hk | hk <;> exact ErrKind.noConfusion hk
    · rw [h] at he
      injection he with h2
      injection h2 with h3
      subst h3
      refine ⟨fun hk => ?_, fun _ => ⟨fields, rfl, rfl⟩⟩
      rcases hk with hk | hk <;> exact ErrKind.noConfusion hk
    · rw [h] at he
      exact Option.noConfusion he
    · rw [h] at he
      injection he with h2
      have hp := dispatchParams_error_id m mn (pyGet fields idKey)
        (pyGet fields paramsKey) e h2
      refine ⟨hp.1, fun hk => ?_⟩
      rcases hk with hk | hk
      · exact absurd hk hp.2.2
      · exact ⟨fields, rfl, hp.2.1 hk⟩
  | null =>
    have h : handleParsed methods JSON.null =
        some (Except.error ⟨ErrKind.invalidRequest, none, none⟩) := rfl
    rw [h] at he
    injection he with h2
    injection h2 with h3
    subst h3
    refine ⟨fun _ => rfl, fun hk => ?_⟩
    rcases hk with hk | hk <;> exact ErrKind.noConfusion hk
  | bool b =>
    have h : handleParsed methods (JSON.bool b) =
        some (Except.error ⟨ErrKind.invalidRequest, none, none⟩) := rfl
    rw [h] at he
    injection he with h2
    injection h2 with h3
    subst h3
    refine ⟨fun _ => rfl, fun hk => ?_⟩
    rcases hk with hk | hk <;> exact ErrKind.noConfusion hk
  | num n =>
    have h : handleParsed methods (JSON.num n) =
        some (Except.error ⟨ErrKind.invalidRequest, none, none⟩) := rfl
    rw [h] at he
    injection he with h2
    injection h2 with h3
    subst h3
    refine ⟨fun _ => rfl, fun hk => ?_⟩
    rcases hk with hk | hk <;> exact ErrKind.noConfusion hk
  | str s =>
    have h : handleParsed methods (JSON.str s) =
        some (Except.error ⟨ErrKind.invalidRequest, none, none⟩) := rfl
    rw [h] at he
    injection he with h2
    injection h2 with h3
    subst h3
    refine ⟨fun _ => rfl, fun hk => ?_⟩
    rcases hk with hk | hk <;> exact ErrKind.noConfusion hk
  | arr xs =>
    have h : handleParsed methods (JSON.arr xs) =
        some (Except.error ⟨ErrKind.invalidRequest, none, none⟩) := rfl
    rw [h] at he
    injection he with h2
    injection h2 with h3
    subst h3
    refine ⟨fun _ => rfl, fun hk => ?_⟩
    rcases hk with hk | hk <;> exact ErrKind.noConfusion hk

/-- Witness for `c9_error_id_policy`: the arity-mismatch `InvalidParams`
raised for `{"jsonrpc": "2.0", "method": "echo", "params": [], "id": 7}`
omits the id even though the request carried `"id": 7`. -/
theorem c9_error_id_policy_witness :
    (RequestError.mk ErrKind.invalidParams none
      (some ("Method " ++ echoName ++ " takes " ++ toString (1 : Nat)
        ++ " params"))).request_id = none :=
  (c9_error_id_policy echoMethods (JSON.obj reqBadArityFields)
    ⟨ErrKind.invalidParams, none,
      some ("Method " ++ echoName ++ " takes " ++ toString (1 : Nat)
        ++ " params")⟩ rfl).1 (Or.inl rfl)

/-- C4: in the connection loop, a line whose processing raises a fatal
error (`RequestParseError` or `InvalidRequest`) has its envelope written
and terminates the loop with the remaining lines never read, while a
recoverable error (`MethodNotFound`, `InvalidParams`, `ServerError`) has
its envelope written and the loop continues with the next line. -/
theorem c4_fatal_vs_recoverable (methods : List (String × Method)) (l : String)
    (rest : List String) (e : RequestError) (hne : l ≠ "")
    (he : handle_request methods (pyStrip l) = some (Except.error e)) :
    (e.kind = ErrKind.requestParseError ∨ e.kind = ErrKind.invalidRequest →
      handle_connection methods (l :: rest) = ([e.get_response ++ "\n"], rest)) ∧
    (e.kind = ErrKind.methodNotFound ∨ e.kind = ErrKind.invalidParams ∨
        e.kind = ErrKind.serverError →
      handle_connection methods (l :: rest) =
        ((e.get_response ++ "\n") :: (handle_connection methods rest).1,
          (handle_connection methods rest).2)) := by
  constructor
  · intro hk
    have hf : e.isFatal = true := by
      unfold RequestError.isFatal
      rcases hk with hk | hk <;> rw [hk]
    simp only [handle_connection]
    rw [if_neg hne, he]
    simp [hf]
  · intro hk
    have hf : e.isFatal = false := by
      unfold RequestError.isFatal
      rcases hk with hk | hk | hk <;> rw [hk]
    simp only [handle_connection]
    rw [if_neg hne, he]
    simp [hf]

/-- Witness for `c4_fatal_vs_recoverable`: the unparseable line
`nonsense` yields the fatal `RequestParseError`, its envelope is written
and the following line is never read. -/
theorem c4_fatal_vs_recoverable_witness :
    handle_connection ([] : List (String × Method)) [badLine, badLine] =
      ([RequestError.get_response ⟨ErrKind.requestParseError, none, none⟩
        ++ "\n"], [badLine]) :=
  (c4_fatal_vs_recoverable [] badLine [badLine]
    ⟨ErrKind.requestParseError, none, none⟩ (by decide) rfl).1 (Or.inl rfl)

/-- C5 counterexample: the id-less request `{"jsonrpc": "2.0",
"method": []}` fails validation (its method is not registered), yet no
error envelope is produced or sent: hashing the list-valued `method` at
line 180 raises a `TypeError` that is not a `RequestError`, the loop
aborts through the outer `except Exception` at line 159, and the
connection closes with zero bytes written — the validation failure is
silently swallowed although no handler invocation succeeded. -/
theorem c5_unhashable_method_counterexample :
    json_loads (pyStrip crashLine) = some (JSON.obj crashFields) ∧
    List.lookup idKey crashFields = none ∧
    handle_request ([] : List (String × Method)) (pyStrip crashLine) = none ∧
    handle_connection ([] : List (String × Method)) [crashLine] = ([], []) :=
  ⟨rfl, rfl, rfl, rfl⟩

/-- C5 (amended): for a request line that parses to an object without an
extractable id (a notification) whose `method` member is hashable (not a
JSON array or object): processing always yields a classified outcome —
the connection handler is never crashed — a response payload is never
produced, any validation or handler error is still rendered and written
to the connection, and output is suppressed (the connection behaves as
if the line were skipped) exactly on success.  An array- or
object-valued `method` instead closes the connection with nothing
written, see `c5_unhashable_method_counterexample`. -/
theorem c5_notification_errors_reported (methods : List (String × Method))
    (l : String) (rest : List String) (fields : List (String × JSON))
    (hne : l ≠ "")
    (hp : json_loads (pyStrip l) = some (JSON.obj fields))
    (hmeth : hashable (pyGet fields methodKey) = true)
    (hid : pyGet fields idKey = none) :
    handle_request methods (pyStrip l) ≠ none ∧
    (∀ r, handle_request methods (pyStrip l) ≠ some (Except.ok (some r))) ∧
    (∀ e, handle_request methods (pyStrip l) = some (Except.error e) →
      (e.get_response ++ "\n") ∈ (handle_connection methods (l :: rest)).1) ∧
    (handle_request methods (pyStrip l) = some (Except.ok none) →
      handle_connection methods (l :: rest) = handle_connection methods rest) := by
  refine ⟨?_, ?_, ?_, ?_⟩
  · rw [handle_request_parsed methods (pyStrip l) (JSON.obj fields) hp]
    intro hcon
    cases hhp : handleParsed methods (JSON.obj fields) with
    | none => exact handleParsed_no_crash methods fields hmeth hhp
    | some r0 =>
      rw [hhp] at hcon
      exact Option.noConfusion hcon
  · intro r hr
    rw [handle_request_parsed methods (pyStrip l) (JSON.obj fields) hp] at hr
    cases hhp : handleParsed methods (JSON.obj fields) with
    | none =>
      rw [hhp] at hr
      exact Option.noConfusion hr
    | some r0 =>
      rw [hhp] at hr
      injection hr with h2
      cases r0 with
      | error e => exact Except.noConfusion h2
      | ok o =>
        cases o with
        | none => simp [renderResult] at h2
        | some x =>
          exact handleParsed_notification_no_payload methods fields hid x hhp
  · intro e he
    simp only [handle_connection]
    rw [if_neg hne, he]
    cases hf : e.isFatal with
    | true => simp [hf]
    | false => simp [hf]
  · intro hok
    simp only [handle_connection]
    rw [if_neg hne, hok]

/-- Witness for `c5_notification_errors_reported`: the id-less line
`{"jsonrpc": "2.0"}` has no method, and the `MethodNotFound` envelope is
written even though the request is a notification. -/
theorem c5_notification_errors_reported_witness :
    (RequestError.get_response ⟨ErrKind.methodNotFound, none, none⟩ ++ "\n") ∈
      (handle_connection ([] : List (String × Method)) [noMethodLine]).1 :=
  (c5_notification_errors_reported [] noMethodLine [] noMethodFields
    (by decide) rfl rfl rfl).2.2.1 ⟨ErrKind.methodNotFound, none, none⟩ rfl

/-- Stripping a string made of whitespace yields the empty string. -/
theorem pyStrip_all_ws (l : String)
    (hws : l.toList.all Char.isWhitespace = true) : pyStrip l = "" := by
  unfold pyStrip
  have h1 : l.toList.dropWhile Char.isWhitespace = [] := by
    rw [List.dropWhile_eq_nil_iff]
    intro x hx
    exact List.all_eq_true.mp hws x hx
  rw [h1]
  rfl

/-- C10: a received line consisting only of whitespace is not stream
end: it strips to the empty string, which fails JSON parsing, so the
`ParseError` (code -32700) envelope is sent and the connection
terminates; only a truly empty read ends the loop cleanly with no
error. -/
theorem c10_whitespace_line_parse_error (methods : List (String × Method))
    (l : String) (rest : List String) (hne : l ≠ "")
    (hws : l.toList.all Char.isWhitespace = true) :
    handle_connection methods (l :: rest) =
      ([RequestError.get_response ⟨ErrKind.requestParseError, none, none⟩
        ++ "\n"], rest) ∧
    ErrKind.code ErrKind.requestParseError = -32700 ∧
    handle_connection methods ("" :: rest) = ([], rest) := by
  have hstrip : pyStrip l = "" := pyStrip_all_ws l hws
  have he : handle_request methods (pyStrip l) =
      some (Except.error ⟨ErrKind.requestParseError, none, none⟩) := by
    rw [hstrip]
    rfl
  refine ⟨?_, rfl, by simp [handle_connection]⟩
  simp only [handle_connection]
  rw [if_neg hne, he]
  simp [RequestError.isFatal]

/-- Witness for `c10_whitespace_line_parse_error` at the bare-newline
line. -/
theorem c10_whitespace_line_parse_error_witness :
    handle_connection ([] : List (String × Method)) ["\n", badLine] =
      ([RequestError.get_response ⟨ErrKind.requestParseError, none, none⟩
        ++ "\n"], [badLine]) :=
  (c10_whitespace_line_parse_error [] "\n" [badLine] (by decide) (by decide)).1

/-- `sameKeySet` is reflexive. -/
theorem sameKeySet_self (a : List String) : sameKeySet a a = true := by
  unfold sameKeySet
  rw [Bool.and_self]
  rw [List.all_eq_true]
  intro x hx
  exact List.elem_eq_true_of_mem hx

/-- Keyword binding by the declared names over the zipped name/value list
recovers the positional argument list. -/
theorem map_lookup_zip (names : List String) (vs : List JSON)
    (hnd : names.Nodup) (hlen : vs.length = names.length) :
    names.map (fun n => (List.lookup n (names.zip vs)).getD JSON.null) = vs := by
  induction names generalizing vs with
  | nil =>
    cases vs with
    | nil => rfl
    | cons v us => simp at hlen
  | cons n ns ih =>
    cases vs with
    | nil => simp at hlen
    | cons v us =>
      rcases List.nodup_cons.mp hnd with ⟨hn, hnd2⟩
      simp only [List.zip_cons_cons, List.map_cons]
      have hhead : (List.lookup n ((n, v) :: ns.zip us)).getD JSON.null = v := by
        simp [List.lookup]
      have htail : ∀ x ∈ ns,
          (List.lookup x ((n, v) :: ns.zip us)).getD JSON.null =
            (List.lookup x (ns.zip us)).getD JSON.null := by
        intro x hx
        have hxn : (x == n) = false :=
          beq_eq_false_iff_ne.mpr (fun hh => hn (hh ▸ hx))
        simp [List.lookup, hxn]
      rw [hhead, List.map_congr_left htail,
        ih us hnd2 (by simpa using hlen)]

/-- C6: for a registered method declaring `N` (pairwise distinct)
parameter names and any `N` argument values (and any id), invoking it
with the correctly-ordered positional array and invoking it with the
object binding exactly the declared names to the same values yield
identical processing results. -/
theorem c6_positional_named_equiv (methods : List (String × Method))
    (name : String) (m : Method) (idv : JSON) (vs : List JSON)
    (hm : List.lookup name methods = some m)
    (hnd : m.param_names.Nodup)
    (hlen : vs.length = m.param_names.length) :
    handleParsed methods (reqWith name idv (JSON.arr vs)) =
      handleParsed methods (reqWith name idv
        (JSON.obj (m.param_names.zip vs))) := by
  rw [handleParsed_reqWith methods name idv (JSON.arr vs) m hm,
    handleParsed_reqWith methods name idv (JSON.obj (m.param_names.zip vs)) m hm]
  have hlen2 : (m.param_names.zip vs).length = m.param_names.length := by
    rw [List.length_zip, hlen, Nat.min_self]
  congr 1
  show dispatchParams m name (pyVal idv) (some (JSON.arr vs)) =
    dispatchParams m name (pyVal idv) (some (JSON.obj (m.param_names.zip vs)))
  unfold dispatchParams
  rw [if_neg (by simp [badArity, hlen]), if_neg (by simp [badArity, hlen2])]
  show finishCall m (pyVal idv) vs =
    (if sameKeySet m.param_names ((m.param_names.zip vs).map Prod.fst) = true then
      finishCall m (pyVal idv) (m.param_names.map (fun n =>
        (List.lookup n (m.param_names.zip vs)).getD JSON.null))
    else Except.error ⟨ErrKind.invalidParams, none,
      some ("Method " ++ name ++ " param names are: "
        ++ (", ").intercalate m.param_names)⟩)
  have hkeys : (m.param_names.zip vs).map Prod.fst = m.param_names :=
    List.map_fst_zip m.param_names vs (le_of_eq hlen.symm)
  rw [hkeys, sameKeySet_self, if_pos rfl,
    map_lookup_zip m.param_names vs hnd hlen]

/-- Witness for `c6_positional_named_equiv` at the two-parameter method
`pair` with arguments `[42, 23]` and id 3. -/
theorem c6_positional_named_equiv_witness :
    handleParsed pairMethods
      (reqWith pairName (JSON.num 3) (JSON.arr [JSON.num 42, JSON.num 23])) =
    handleParsed pairMethods
      (reqWith pairName (JSON.num 3)
        (JSON.obj (pairMethod.param_names.zip [JSON.num 42, JSON.num 23]))) :=
  c6_positional_named_equiv pairMethods pairName pairMethod (JSON.num 3)
    [JSON.num 42, JSON.num 23] rfl (by decide) rfl

/-- C7: a `params` object with as many members as the declared arity but
a key set different from the declared parameter-name set is rejected
with `InvalidParams` (code -32602, recoverable) whose diagnostic data
names the expected parameter names; the result does not depend on the
handler, which is never invoked. -/
theorem c7_keyset_mismatch (methods : List (String × Method)) (name : String)
    (m : Method) (idv : JSON) (pfs : List (String × JSON))
    (hm : List.lookup name methods = some m)
    (hlen : pfs.length = m.param_names.length)
    (hkeys : sameKeySet m.param_names (pfs.map Prod.fst) = false) :
    handleParsed methods (reqWith name idv (JSON.obj pfs)) =
      some (Except.error ⟨ErrKind.invalidParams, none,
        some ("Method " ++ name ++ " param names are: "
          ++ (", ").intercalate m.param_names)⟩) ∧
    ErrKind.code ErrKind.invalidParams = -32602 ∧
    RequestError.isFatal ⟨ErrKind.invalidParams, none,
      some ("Method " ++ name ++ " param names are: "
        ++ (", ").intercalate m.param_names)⟩ = false := by
  refine ⟨?_, rfl, rfl⟩
  rw [handleParsed_reqWith methods name idv (JSON.obj pfs) m hm]
  congr 1
  show dispatchParams m name (pyVal idv) (some (JSON.obj pfs)) = _
  unfold dispatchParams
  rw [if_neg (by simp [badArity, hlen])]
  show (if sameKeySet m.param_names (pfs.map Prod.fst) = true then
      finishCall m (pyVal idv) (m.param_names.map (fun n =>
        (List.lookup n pfs).getD JSON.null))
    else Except.error ⟨ErrKind.invalidParams, none,
      some ("Method " ++ name ++ " param names are: "
        ++ (", ").intercalate m.param_names)⟩) = _
  rw [if_neg (by simp [hkeys])]

/-- Witness for `c7_keyset_mismatch`: `pair` declares `a, b` but the
object binds keys `a, c`. -/
theorem c7_keyset_mismatch_witness :
    handleParsed pairMethods (reqWith pairName (JSON.num 3)
      (JSON.obj [(aKey, JSON.num 1), (cKey, JSON.num 2)])) =
    some (Except.error ⟨ErrKind.invalidParams, none,
      some ("Method " ++ pairName ++ " param names are: "
        ++ (", ").intercalate pairMethod.param_names)⟩) :=
  (c7_keyset_mismatch pairMethods pairName pairMethod (JSON.num 3)
    [(aKey, JSON.num 1), (cKey, JSON.num 2)] rfl rfl (by decide)).1

/-- C8: a handler invocation that raises is wrapped as `ServerError`
(code -32000, recoverable) carrying the request id as extracted
(`pyVal idv`, `none` for a notification) and a diagnostic data field with
the textual representation of the failure; the failure surfaces as a
classified `RequestError` value, never as an unhandled fault. -/
theorem c8_handler_failure_wrapped (methods : List (String × Method))
    (name : String) (m : Method) (idv : JSON) (vs : List JSON) (emsg : String)
    (hm : List.lookup name methods = some m)
    (hlen : vs.length = m.param_names.length)
    (hrun : m.run vs = Except.error emsg) :
    handleParsed methods (reqWith name idv (JSON.arr vs)) =
      some (Except.error ⟨ErrKind.serverError, pyVal idv, some emsg⟩) ∧
    ErrKind.code ErrKind.serverError = -32000 ∧
    RequestError.isFatal ⟨ErrKind.serverError, pyVal idv, some emsg⟩ = false := by
  refine ⟨?_, rfl, rfl⟩
  rw [handleParsed_reqWith methods name idv (JSON.arr vs) m hm]
  congr 1
  show dispatchParams m name (pyVal idv) (some (JSON.arr vs)) = _
  unfold dispatchParams
  rw [if_neg (by simp [badArity, hlen])]
  show finishCall m (pyVal idv) vs = _
  unfold finishCall
  rw [hrun]

/-- Witness for `c8_handler_failure_wrapped` at the always-raising
method `fail` with id 9. -/
theorem c8_handler_failure_wrapped_witness :
    handleParsed failMethods (reqWith failName (JSON.num 9) (JSON.arr [])) =
      some (Except.error ⟨ErrKind.serverError, some (JSON.num 9),
        some failMsg⟩) :=
  (c8_handler_failure_wrapped failMethods failName failMethod (JSON.num 9)
    [] failMsg rfl rfl rfl).1

end Uajsonrpcserver
